import Mathlib

/-!
Verification of the MEV sandwich pipeline in `src/flashbots.ts`
(`FlashbotsMEVExecutor`): `executeBundle`, `createSandwichBundle`,
`scanMEVOpportunities` and `analyzeTransaction`.

Modelling conventions:
* Wei amounts are `Nat` (JS bigints here are always non-negative).
* Each `await`ed external call is an explicit oracle field of type
  `Except Unit _`; a thrown error is `Except.error ()`, and the
  surrounding `try`/`catch` blocks become pattern matches.
* `ethers.formatEther` renders a wei amount as a decimal string made of a
  whole-ether part and an 18-digit fractional part; `EtherDecimal` models
  that string by those two numbers, and `parseEther` converts it back.
* Signing (`wallet.signTransaction`) serializes the request; a signed
  transaction is modelled as a wrapper carrying the request it signs, and
  the oracle's `signOk` says whether the signing call succeeds.
-/

/-- Decimal ether amount as rendered by `ethers.formatEther`: the whole-ether
units and the fractional part scaled to 18 decimal digits. -/
structure EtherDecimal where
  units : Nat
  frac : Nat
deriving DecidableEq

/-- Model of `ethers.formatEther`: split a wei amount into whole ether and
an 18-digit remainder. -/
def formatEther (wei : Nat) : EtherDecimal :=
  { units := wei / 10 ^ 18, frac := wei % 10 ^ 18 }

/-- Model of `ethers.parseEther` on a decimal produced by `formatEther`. -/
def parseEther (d : EtherDecimal) : Nat :=
  d.units * 10 ^ 18 + d.frac

/-- Hard-coded router constant from line 19 of `src/flashbots.ts`. -/
def UNISWAP_V2_ROUTER : String := "0x7a250d5630B4cF539739dF2C5dAcb4c659F2488D"

/-- The Uniswap V3 router literal from the allow-list in `analyzeTransaction`. -/
def UNISWAP_V3_ROUTER : String := "0xE592427A0AEce92De3Edee1F18E0157C05861564"

/-- ASCII lowercase of one character. JS `toLowerCase` agrees with this on
the ASCII hexadecimal addresses handled here; the Lean core `Char.toLower`
is avoided because it does not reduce in the kernel. -/
def charToLower (c : Char) : Char :=
  if c.isUpper then Char.ofNat (c.toNat + 32) else c

/-- JS `String.prototype.toLowerCase` on the ASCII addresses involved. -/
def toLowerCase (s : String) : String :=
  String.mk (s.data.map charToLower)

/-- The allow-list of router addresses, lower-cased as in `analyzeTransaction`. -/
def dexAddresses : List String :=
  [UNISWAP_V2_ROUTER, UNISWAP_V3_ROUTER].map toLowerCase

/-- Value of `ethers.parseEther` on the threshold string in `analyzeTransaction`:
0.05 ether in wei. -/
def minTargetValueWei : Nat := 5 * 10 ^ 16

/-- Value of `ethers.parseUnits` for 3 gwei, the fallback priority fee. -/
def gwei3 : Nat := 3 * 10 ^ 9

/-- Value of `ethers.parseUnits` for 50 gwei, the fallback max fee. -/
def gwei50 : Nat := 50 * 10 ^ 9

/-- The placeholder calldata built in `createSandwichBundle`:
the selector `0x12345678` followed by 56 zero characters. -/
def placeholderData : String := "0x12345678" ++ String.mk (List.replicate 56 '0')

/-- A pending transaction as `analyzeTransaction` reads it: recipient
(nullable), value in wei, hash. -/
structure TransactionResponse where
  «to» : Option String
  value : Nat
  hash : String
deriving DecidableEq

/-- The discriminated opportunity kind of the `MEVOpportunity` interface. -/
inductive MEVType where
  | sandwich
  | arbitrage
  | liquidation
deriving DecidableEq

/-- The `MEVOpportunity` interface: kind, profit (a decimal ether string),
the transactions involved, target block, and the optional target value. -/
structure MEVOpportunity where
  type : MEVType
  profit : EtherDecimal
  transactions : List TransactionResponse
  targetBlock : Nat
  targetTxValue : Option Nat
deriving DecidableEq

/-- An EIP-1559 transaction request as built in `createSandwichBundle`.
The source field `from` is spelled `fromAddr` (`from` is reserved in Lean). -/
structure TransactionRequest where
  «to» : String
  data : String
  gasLimit : Nat
  maxPriorityFeePerGas : Nat
  maxFeePerGas : Nat
  value : Nat
  chainId : Nat
  fromAddr : String
  nonce : Nat
deriving DecidableEq

/-- Result of `wallet.signTransaction`: a signed blob determined by the
request it signs. -/
structure SignedTransaction where
  tx : TransactionRequest
deriving DecidableEq

/-- The `BundleRequest` interface: signed transactions in execution order
plus the target block number. -/
structure BundleRequest where
  transactions : List SignedTransaction
  blockNumber : Nat
deriving DecidableEq

/-- The fields of `provider.getFeeData()` used by the builder; each is
nullable. -/
structure FeeData where
  maxPriorityFeePerGas : Option Nat
  maxFeePerGas : Option Nat
deriving DecidableEq

/-- JS `a || b` on a nullable bigint: `b` when `a` is null or zero
(the bigint 0n is falsy). -/
def jsOr (a : Option Nat) (b : Nat) : Nat :=
  match a with
  | none => b
  | some v => if v = 0 then b else v

/-- JS truthiness of the guard `!opportunity.targetTxValue`: true when the
value is absent or zero. -/
def missingTargetValue (v : Option Nat) : Bool :=
  match v with
  | none => true
  | some n => n == 0

/-- Outcomes of the external calls `createSandwichBundle` awaits, plus
whether each signing call succeeds. -/
structure ChainOracle where
  getBlockNumber : Except Unit Nat
  getTransactionCount : Except Unit Nat
  getFeeData : Except Unit FeeData
  signOk : TransactionRequest → Bool

/-- Miner tip computed on line 96: half of the profit converted back to wei. -/
def minerTip (profit : EtherDecimal) : Nat := parseEther profit / 2

/-- The front-run transaction literal of `createSandwichBundle`. -/
def frontRunTx (walletAddress : String) (initialNonce maxPriorityFee maxFeeWithTip frontRunAmountIn : Nat) :
    TransactionRequest :=
  { «to» := UNISWAP_V2_ROUTER
    data := placeholderData
    gasLimit := 300000
    maxPriorityFeePerGas := maxPriorityFee
    maxFeePerGas := maxFeeWithTip
    value := frontRunAmountIn
    chainId := 1
    fromAddr := walletAddress
    nonce := initialNonce }

/-- The back-run transaction literal of `createSandwichBundle`: value 0 and
nonce one above the front-run. -/
def backRunTx (walletAddress : String) (initialNonce maxPriorityFee maxFeeWithTip : Nat) :
    TransactionRequest :=
  { «to» := UNISWAP_V2_ROUTER
    data := placeholderData
    gasLimit := 300000
    maxPriorityFeePerGas := maxPriorityFee
    maxFeePerGas := maxFeeWithTip
    value := 0
    chainId := 1
    fromAddr := walletAddress
    nonce := initialNonce + 1 }

/-- Model of `createSandwichBundle`, `src/flashbots.ts` lines 82-151: guard on the
target value, read block height, nonce and fee data, build the two
transactions, sign both, and return the bundle; any thrown error is caught
and turned into `none`. -/
def createSandwichBundle (oracle : ChainOracle) (walletAddress : String)
    (opportunity : MEVOpportunity) : Option BundleRequest :=
  match opportunity.targetTxValue with
  | none => none
  | some targetTxValue =>
    if targetTxValue = 0 then none
    else
      match oracle.getBlockNumber with
      | Except.error _ => none
      | Except.ok currentBlock =>
        match oracle.getTransactionCount with
        | Except.error _ => none
        | Except.ok initialNonce =>
          match oracle.getFeeData with
          | Except.error _ => none
          | Except.ok feeData =>
            let maxPriorityFeePerGas := jsOr feeData.maxPriorityFeePerGas gwei3
            let maxFeePerGasWithTip :=
              jsOr feeData.maxFeePerGas gwei50 + minerTip opportunity.profit
            let frontRun := frontRunTx walletAddress initialNonce
              maxPriorityFeePerGas maxFeePerGasWithTip (targetTxValue / 10)
            let backRun := backRunTx walletAddress initialNonce
              maxPriorityFeePerGas maxFeePerGasWithTip
            if oracle.signOk frontRun then
              if oracle.signOk backRun then
                some { transactions := [⟨frontRun⟩, ⟨backRun⟩]
                       blockNumber := currentBlock + 1 }
              else none
            else none

/-- Model of `analyzeTransaction`, `src/flashbots.ts` lines 184-217: reject null
transactions and null recipients, require an allow-listed recipient and a
value above 0.05 ether, compute the 5 percent profit, and catch any failure
of the block-number call as `none`. -/
def analyzeTransaction (getBlockNumber : Except Unit Nat)
    (tx : Option TransactionResponse) : Option MEVOpportunity :=
  match tx with
  | none => none
  | some t =>
    match t.«to» with
    | none => none
    | some toAddr =>
      if dexAddresses.contains (toLowerCase toAddr) ∧ t.value ≠ 0 ∧ minTargetValueWei < t.value then
        match getBlockNumber with
        | Except.error _ => none
        | Except.ok blockNumber =>
          some { type := MEVType.sandwich
                 profit := formatEther (t.value * 5 / 100)
                 transactions := [t]
                 targetBlock := blockNumber + 1
                 targetTxValue := some t.value }
      else none

/-- The pending block returned by the `eth_getBlockByNumber` RPC call, with a
nullable transaction list; the element type stays abstract (raw JSON data). -/
structure PendingBlock (α : Type) where
  transactions : Option (List α)

/-- The per-item loop body of `scanMEVOpportunities`: convert the raw data
through the formatter (a conversion failure throws into the outer catch,
which keeps what was collected so far), analyze, and collect hits. -/
def scanLoop {α : Type} (format : α → Except Unit (Option TransactionResponse))
    (getBlockNumber : α → Except Unit Nat) : List α → List MEVOpportunity
  | [] => []
  | txData :: rest =>
    match format txData with
    | Except.error _ => []
    | Except.ok tx =>
      match analyzeTransaction (getBlockNumber txData) tx with
      | some opportunity => opportunity :: scanLoop format getBlockNumber rest
      | none => scanLoop format getBlockNumber rest

/-- Model of `scanMEVOpportunities`, `src/flashbots.ts` lines 154-179: fetch the
pending block, iterate over the first 10 transactions, and return the
collected opportunities; a fetch failure yields the empty list. -/
def scanMEVOpportunities {α : Type}
    (fetchPending : Except Unit (Option (PendingBlock α)))
    (format : α → Except Unit (Option TransactionResponse))
    (getBlockNumber : α → Except Unit Nat) : List MEVOpportunity :=
  match fetchPending with
  | Except.error _ => []
  | Except.ok none => []
  | Except.ok (some pendingBlock) =>
    match pendingBlock.transactions with
    | none => []
    | some txs => scanLoop format getBlockNumber (txs.take 10)

/-- The inclusion-wait response as `executeBundle` reads it: an optional
error field and an optional inclusion block number. -/
structure WaitResponse where
  error : Option String
  blockNumber : Option Nat
deriving DecidableEq

/-- Outcomes of the two awaited relay calls in `executeBundle`. -/
structure RelayOracle where
  sendBundle : Except Unit Unit
  wait : Except Unit WaitResponse

/-- Model of `executeBundle`, `src/flashbots.ts` lines 50-75: submit, wait, return
false when the response carries an error field, true otherwise; thrown
errors are caught and become false. -/
def executeBundle (relay : RelayOracle) (bundleRequest : BundleRequest) : Bool :=
  match relay.sendBundle with
  | Except.error _ => false
  | Except.ok _ =>
    match relay.wait with
    | Except.error _ => false
    | Except.ok waitResponse =>
      match waitResponse.error with
      | some _ => false
      | none => true

/-! ## Concrete inputs used by witnesses and counterexamples -/

/-- Fee estimate whose suggested priority fee is 1 gwei, below the 3 gwei
default. -/
def okFeeData : FeeData :=
  { maxPriorityFeePerGas := some 1000000000, maxFeePerGas := some 50000000000 }

/-- A chain oracle whose every call succeeds: head block 100, nonce 7,
fees `okFeeData`, and signing always succeeds. -/
def okOracle : ChainOracle :=
  { getBlockNumber := Except.ok 100
    getTransactionCount := Except.ok 7
    getFeeData := Except.ok okFeeData
    signOk := fun _ => true }

/-- A 1-ether swap sent to the V2 router. -/
def sampleTargetTx : TransactionResponse :=
  { «to» := some UNISWAP_V2_ROUTER, value := 10 ^ 18, hash := "0xtarget" }

/-- The opportunity `analyzeTransaction` produces for `sampleTargetTx` at
head block 100: 5 percent profit on 1 ether. -/
def sampleAnalyzedOpportunity : MEVOpportunity :=
  { type := MEVType.sandwich
    profit := formatEther (10 ^ 18 * 5 / 100)
    transactions := [sampleTargetTx]
    targetBlock := 101
    targetTxValue := some (10 ^ 18) }

/-- A 1-ether swap sent to the V3 router (lower-cased address). -/
def sampleV3TargetTx : TransactionResponse :=
  { «to» := some "0xe592427a0aece92de3edee1f18e0157c05861564"
    value := 10 ^ 18
    hash := "0xv3" }

/-- The opportunity for `sampleV3TargetTx`: same sizing, V3 target. -/
def sampleV3Opportunity : MEVOpportunity :=
  { type := MEVType.sandwich
    profit := formatEther (10 ^ 18 * 5 / 100)
    transactions := [sampleV3TargetTx]
    targetBlock := 101
    targetTxValue := some (10 ^ 18) }

/-- The bundle `createSandwichBundle` builds from `okOracle` and a 1-ether
opportunity: tip 0.025 ether folded into the max fee, front-run value
0.1 ether, nonces 7 and 8, target block 101. -/
def sampleBundle : BundleRequest :=
  { transactions :=
      [⟨frontRunTx "0xWallet" 7 1000000000 25000050000000000 100000000000000000⟩,
       ⟨backRunTx "0xWallet" 7 1000000000 25000050000000000⟩]
    blockNumber := 101 }

/-- A transaction to a recipient outside the router allow-list. -/
def nonDexTx : TransactionResponse :=
  { «to» := some "0x000000000000000000000000000000000000dEaD"
    value := 10 ^ 18
    hash := "0xother" }

/-- A pending candidate addressed to the V2 router, worth i+1 ether. -/
def scanPoolTx (i : Nat) : TransactionResponse :=
  { «to» := some UNISWAP_V2_ROUTER, value := (i + 1) * 10 ^ 18, hash := "0xpending" }

/-- Formatter output for the scan witness pool. -/
def scanPoolFmt : Nat → Option TransactionResponse := fun i => some (scanPoolTx i)

/-- Formatter oracle for the scan witness pool: always succeeds. -/
def scanPoolFormat : Nat → Except Unit (Option TransactionResponse) :=
  fun i => Except.ok (scanPoolFmt i)

/-- Block-number oracle whose call throws for the middle candidate only. -/
def scanPoolBN : Nat → Except Unit Nat :=
  fun i => if i = 1 then Except.error () else Except.ok 100

/-- A pending block holding three raw candidates. -/
def scanPoolBlock : PendingBlock Nat := { transactions := some [0, 1, 2] }

/-! ## Helper lemmas about the bundle builder -/

/-- Converting a wei amount to a decimal string and back is the identity. -/
theorem parseEther_formatEther (wei : Nat) : parseEther (formatEther wei) = wei := by
  simp only [parseEther, formatEther]
  rw [Nat.mul_comm]
  exact Nat.div_add_mod wei (10 ^ 18)

/-- Inversion: a successfully built bundle pins down the guard, every
external-call outcome, and the exact shape of the returned bundle. -/
theorem createSandwichBundle_inv {oracle : ChainOracle} {w : String}
    {opp : MEVOpportunity} {b : BundleRequest}
    (h : createSandwichBundle oracle w opp = some b) :
    ∃ v cb n fd,
      opp.targetTxValue = some v ∧ v ≠ 0 ∧
      oracle.getBlockNumber = Except.ok cb ∧
      oracle.getTransactionCount = Except.ok n ∧
      oracle.getFeeData = Except.ok fd ∧
      b = { transactions :=
              [⟨frontRunTx w n (jsOr fd.maxPriorityFeePerGas gwei3)
                  (jsOr fd.maxFeePerGas gwei50 + minerTip opp.profit) (v / 10)⟩,
               ⟨backRunTx w n (jsOr fd.maxPriorityFeePerGas gwei3)
                  (jsOr fd.maxFeePerGas gwei50 + minerTip opp.profit)⟩],
            blockNumber := cb + 1 } := by
  unfold createSandwichBundle at h
  cases hv : opp.targetTxValue with
  | none => simp [hv] at h
  | some v =>
    simp only [hv] at h
    by_cases hz : v = 0
    · simp [if_pos hz] at h
    · rw [if_neg hz] at h
      cases hcb : oracle.getBlockNumber with
      | error e => simp [hcb] at h
      | ok cb =>
        simp only [hcb] at h
        cases hn : oracle.getTransactionCount with
        | error e => simp [hn] at h
        | ok n =>
          simp only [hn] at h
          cases hfd : oracle.getFeeData with
          | error e => simp [hfd] at h
          | ok fd =>
            simp only [hfd] at h
            split at h
            · split at h
              · exact ⟨v, cb, n, fd, rfl, hz, rfl, rfl, rfl, (Option.some.inj h).symm⟩
              · simp at h
            · simp at h

/-- Success shape: when the guard passes, every external call succeeds and
both signing calls succeed, the builder returns exactly this bundle. -/
theorem createSandwichBundle_ok (oracle : ChainOracle) (w : String)
    (opp : MEVOpportunity) (v cb n : Nat) (fd : FeeData)
    (hv : opp.targetTxValue = some v) (hz : v ≠ 0)
    (hcb : oracle.getBlockNumber = Except.ok cb)
    (hn : oracle.getTransactionCount = Except.ok n)
    (hfd : oracle.getFeeData = Except.ok fd)
    (hsign : ∀ r, oracle.signOk r = true) :
    createSandwichBundle oracle w opp =
      some { transactions :=
               [⟨frontRunTx w n (jsOr fd.maxPriorityFeePerGas gwei3)
                   (jsOr fd.maxFeePerGas gwei50 + minerTip opp.profit) (v / 10)⟩,
                ⟨backRunTx w n (jsOr fd.maxPriorityFeePerGas gwei3)
                   (jsOr fd.maxFeePerGas gwei50 + minerTip opp.profit)⟩],
             blockNumber := cb + 1 } := by
  unfold createSandwichBundle
  simp only [hv, hcb, hn, hfd]
  rw [if_neg hz]
  simp [hsign]

/-! ## Helper lemmas about the analyzer and the scanner -/

/-- Success shape of the analyzer: an allow-listed recipient, a value above
the threshold and a successful block-number read produce the sandwich
opportunity with the 5 percent profit. -/
theorem analyzeTransaction_ok (getBN : Except Unit Nat) (t : TransactionResponse)
    (toAddr : String) (bn : Nat)
    (hto : t.«to» = some toAddr)
    (hdex : dexAddresses.contains (toLowerCase toAddr) = true)
    (hval : minTargetValueWei < t.value)
    (hbn : getBN = Except.ok bn) :
    analyzeTransaction getBN (some t) =
      some { type := MEVType.sandwich
             profit := formatEther (t.value * 5 / 100)
             transactions := [t]
             targetBlock := bn + 1
             targetTxValue := some t.value } := by
  have hnz : t.value ≠ 0 := by
    intro h0
    rw [h0] at hval
    exact absurd hval (by decide)
  unfold analyzeTransaction
  simp only [hto, hbn]
  rw [if_pos ⟨hdex, hnz, hval⟩]

/-- Inversion of the analyzer: a produced opportunity pins down the
candidate's shape, the passed filters and the opportunity itself. -/
theorem analyzeTransaction_inv {getBN : Except Unit Nat}
    {tx : Option TransactionResponse} {o : MEVOpportunity}
    (h : analyzeTransaction getBN tx = some o) :
    ∃ t toAddr bn, tx = some t ∧ t.«to» = some toAddr ∧
      dexAddresses.contains (toLowerCase toAddr) = true ∧
      minTargetValueWei < t.value ∧
      getBN = Except.ok bn ∧
      o = { type := MEVType.sandwich
            profit := formatEther (t.value * 5 / 100)
            transactions := [t]
            targetBlock := bn + 1
            targetTxValue := some t.value } := by
  cases tx with
  | none => simp [analyzeTransaction] at h
  | some t =>
    unfold analyzeTransaction at h
    cases hto : t.«to» with
    | none => simp [hto] at h
    | some toAddr =>
      simp only [hto] at h
      by_cases hc : dexAddresses.contains (toLowerCase toAddr) ∧ t.value ≠ 0 ∧
          minTargetValueWei < t.value
      · rw [if_pos hc] at h
        cases hbn : getBN with
        | error e => simp [hbn] at h
        | ok bn =>
          simp only [hbn] at h
          exact ⟨t, toAddr, bn, rfl, hto, hc.1, hc.2.2, rfl, (Option.some.inj h).symm⟩
      · rw [if_neg hc] at h
        exact absurd h (by simp)

/-- The scan loop is the item-wise filterMap of the analyzer when every raw
candidate converts successfully. -/
theorem scanLoop_eq_filterMap {α : Type}
    (format : α → Except Unit (Option TransactionResponse))
    (fmt : α → Option TransactionResponse) (getBN : α → Except Unit Nat)
    (l : List α) (hfmt : ∀ t ∈ l, format t = Except.ok (fmt t)) :
    scanLoop format getBN l
      = l.filterMap (fun t => analyzeTransaction (getBN t) (fmt t)) := by
  induction l with
  | nil => rfl
  | cons t ts ih =>
    have ht : format t = Except.ok (fmt t) := hfmt t (List.mem_cons_self t ts)
    have hts : ∀ x ∈ ts, format x = Except.ok (fmt x) :=
      fun x hx => hfmt x (List.mem_cons_of_mem t hx)
    unfold scanLoop
    simp only [ht, List.filterMap_cons]
    cases ha : analyzeTransaction (getBN t) (fmt t) <;> simp [ha, ih hts]

/-! ## Claim theorems -/

/-- C1 (counterexample): with a network-suggested priority fee of 1 gwei the
built transactions carry 1 gwei, not max(1 gwei, 3 gwei) = 3 gwei, so the
priority fee is not the maximum of the suggestion and the 3 gwei floor. -/
theorem createSandwichBundle_priorityFee_not_max_cex :
    createSandwichBundle okOracle "0xWallet" sampleAnalyzedOpportunity = some sampleBundle ∧
    okFeeData.maxPriorityFeePerGas = some 1000000000 ∧
    sampleBundle.transactions.map (fun st => st.tx.maxPriorityFeePerGas)
      = [1000000000, 1000000000] ∧
    max 1000000000 gwei3 = 3000000000 ∧
    (1000000000 : Nat) ≠ 3000000000 := by
  refine ⟨by decide, rfl, by decide, by decide, by decide⟩

/-- C1 (amended): in every successfully built bundle, both transactions'
maxPriorityFeePerGas equals the network-suggested priority fee when that is
present and nonzero, and the 3 gwei default otherwise — a null/zero
fallback, not a maximum with a floor. -/
theorem createSandwichBundle_priorityFee_fallback
    (oracle : ChainOracle) (w : String) (opp : MEVOpportunity)
    (b : BundleRequest) (fd : FeeData)
    (hfd : oracle.getFeeData = Except.ok fd)
    (h : createSandwichBundle oracle w opp = some b) :
    ∃ a c, b.transactions = [a, c] ∧
      a.tx.maxPriorityFeePerGas = jsOr fd.maxPriorityFeePerGas gwei3 ∧
      c.tx.maxPriorityFeePerGas = jsOr fd.maxPriorityFeePerGas gwei3 := by
  obtain ⟨v, cb, n, fd2, hv, hz, hcb, hn, hfd2, hb⟩ := createSandwichBundle_inv h
  have hfdeq : fd2 = fd := Except.ok.inj (hfd2.symm.trans hfd)
  subst hfdeq
  subst hb
  exact ⟨_, _, rfl, rfl, rfl⟩

/-- C1 witness: the amended statement evaluated on the concrete 1-gwei fee
estimate. -/
theorem createSandwichBundle_priorityFee_fallback_witness :
    ∃ a c, sampleBundle.transactions = [a, c] ∧
      a.tx.maxPriorityFeePerGas = jsOr okFeeData.maxPriorityFeePerGas gwei3 ∧
      c.tx.maxPriorityFeePerGas = jsOr okFeeData.maxPriorityFeePerGas gwei3 :=
  createSandwichBundle_priorityFee_fallback okOracle "0xWallet"
    sampleAnalyzedOpportunity sampleBundle okFeeData rfl (by decide)

/-- C2 (counterexample): a wait response carrying no error field and no
block number still makes executeBundle return true, refuting the claim that
true requires a block number to be present. -/
theorem executeBundle_true_despite_missing_blockNumber :
    executeBundle
      { sendBundle := Except.ok ()
        wait := Except.ok { error := none, blockNumber := none } }
      { transactions := [], blockNumber := 0 } = true
    ∧ ({ error := none, blockNumber := none } : WaitResponse).blockNumber = none :=
  ⟨rfl, rfl⟩

/-- C2 (amended): executeBundle returns true iff both relay calls complete
without a thrown error and the wait response carries no error field; the
presence of a block number is not checked, and the function is total, so
nothing is thrown past its boundary. -/
theorem executeBundle_true_iff_no_error (relay : RelayOracle) (bundleRequest : BundleRequest) :
    executeBundle relay bundleRequest = true ↔
      relay.sendBundle = Except.ok () ∧
      ∃ wr, relay.wait = Except.ok wr ∧ wr.error = none := by
  unfold executeBundle
  cases hs : relay.sendBundle with
  | error e => simp
  | ok u =>
    cases u
    cases hw : relay.wait with
    | error e => simp
    | ok wr =>
      cases he : wr.error with
      | none => simp [he]
      | some s => simp [he]

/-- C3: when the pending-pool fetch succeeds and each raw candidate of the
first-10 slice converts, the scan's result is the item-wise filterMap of
analyzeTransaction over that slice: a failure inside one candidate's
analysis (a failing call caught inside analyzeTransaction) only makes that
item contribute nothing; every other candidate is still processed, and the
batch is never aborted by one candidate's analysis failure. -/
theorem scanMEVOpportunities_isolates_candidate_failures {α : Type}
    (fetchPending : Except Unit (Option (PendingBlock α)))
    (format : α → Except Unit (Option TransactionResponse))
    (fmt : α → Option TransactionResponse)
    (getBlockNumber : α → Except Unit Nat)
    (pendingBlock : PendingBlock α) (txs : List α)
    (hfetch : fetchPending = Except.ok (some pendingBlock))
    (htxs : pendingBlock.transactions = some txs)
    (hfmt : ∀ t ∈ txs.take 10, format t = Except.ok (fmt t)) :
    scanMEVOpportunities fetchPending format getBlockNumber
      = (txs.take 10).filterMap
          (fun t => analyzeTransaction (getBlockNumber t) (fmt t)) := by
  unfold scanMEVOpportunities
  simp only [hfetch, htxs]
  exact scanLoop_eq_filterMap format fmt getBlockNumber (txs.take 10) hfmt

/-- C3 witness: a three-candidate pool whose middle candidate's analysis
fails; the scan still equals the item-wise filterMap, and two opportunities
(the first and the third candidate's) survive. -/
theorem scanMEVOpportunities_isolates_candidate_failures_witness :
    scanMEVOpportunities (Except.ok (some scanPoolBlock)) scanPoolFormat scanPoolBN
      = ([0, 1, 2].take 10).filterMap
          (fun t => analyzeTransaction (scanPoolBN t) (scanPoolFmt t)) ∧
    (([0, 1, 2].take 10).filterMap
        (fun t => analyzeTransaction (scanPoolBN t) (scanPoolFmt t))).length = 2 ∧
    analyzeTransaction (scanPoolBN 1) (scanPoolFmt 1) = none :=
  ⟨scanMEVOpportunities_isolates_candidate_failures (Except.ok (some scanPoolBlock))
      scanPoolFormat scanPoolFmt scanPoolBN scanPoolBlock [0, 1, 2] rfl rfl
      (fun t _ => rfl),
   by decide, by decide⟩

/-- C4: every returned bundle has exactly two transactions; the back-run
nonce is the front-run nonce plus one; the front-run nonce is the account
transaction count read at build time; both transactions share identical
maxPriorityFeePerGas and maxFeePerGas; and the bundle's block number is the
chain head read at build time plus one. -/
theorem createSandwichBundle_bundle_invariants
    (oracle : ChainOracle) (w : String) (opp : MEVOpportunity) (b : BundleRequest)
    (h : createSandwichBundle oracle w opp = some b) :
    b.transactions.length = 2 ∧
    ∃ a c cb, b.transactions = [a, c] ∧
      oracle.getTransactionCount = Except.ok a.tx.nonce ∧
      c.tx.nonce = a.tx.nonce + 1 ∧
      a.tx.maxPriorityFeePerGas = c.tx.maxPriorityFeePerGas ∧
      a.tx.maxFeePerGas = c.tx.maxFeePerGas ∧
      oracle.getBlockNumber = Except.ok cb ∧
      b.blockNumber = cb + 1 := by
  obtain ⟨v, cb, n, fd, hv, hz, hcb, hn, hfd, hb⟩ := createSandwichBundle_inv h
  subst hb
  exact ⟨rfl, _, _, cb, rfl, hn, rfl, rfl, rfl, hcb, rfl⟩

/-- C4 witness: the invariants evaluated on the concrete bundle built from
head block 100 and nonce 7. -/
theorem createSandwichBundle_bundle_invariants_witness :
    sampleBundle.transactions.length = 2 ∧
    ∃ a c cb, sampleBundle.transactions = [a, c] ∧
      okOracle.getTransactionCount = Except.ok a.tx.nonce ∧
      c.tx.nonce = a.tx.nonce + 1 ∧
      a.tx.maxPriorityFeePerGas = c.tx.maxPriorityFeePerGas ∧
      a.tx.maxFeePerGas = c.tx.maxFeePerGas ∧
      okOracle.getBlockNumber = Except.ok cb ∧
      sampleBundle.blockNumber = cb + 1 :=
  createSandwichBundle_bundle_invariants okOracle "0xWallet"
    sampleAnalyzedOpportunity sampleBundle (by decide)

/-- C5: a candidate paying an allow-listed router a value strictly above
0.05 ether yields an opportunity whose profit decimal parses back to
exactly value * 5 / 100 wei, the 5 percent share in integer wei
arithmetic. -/
theorem analyzeTransaction_profit_five_percent
    (getBN : Except Unit Nat) (t : TransactionResponse) (toAddr : String) (bn : Nat)
    (hto : t.«to» = some toAddr)
    (hdex : dexAddresses.contains (toLowerCase toAddr) = true)
    (hval : minTargetValueWei < t.value)
    (hbn : getBN = Except.ok bn) :
    ∃ o, analyzeTransaction getBN (some t) = some o ∧
      parseEther o.profit = t.value * 5 / 100 ∧
      o.targetTxValue = some t.value := by
  refine ⟨_, analyzeTransaction_ok getBN t toAddr bn hto hdex hval hbn, ?_, rfl⟩
  exact parseEther_formatEther (t.value * 5 / 100)

/-- C5 witness: the 1-ether candidate to the V2 router produces a profit of
exactly 0.05 ether in wei. -/
theorem analyzeTransaction_profit_five_percent_witness :
    ∃ o, analyzeTransaction (Except.ok 100) (some sampleTargetTx) = some o ∧
      parseEther o.profit = sampleTargetTx.value * 5 / 100 ∧
      o.targetTxValue = some sampleTargetTx.value :=
  analyzeTransaction_profit_five_percent (Except.ok 100) sampleTargetTx
    UNISWAP_V2_ROUTER 100 rfl (by decide) (by decide) rfl

/-- C6: in every built bundle the miner tip is the profit converted back to
wei and halved by integer division, it is folded into both transactions'
max-fee ceiling on top of the network max fee, and the front-run
transaction's value is the target value divided by 10. -/
theorem createSandwichBundle_tip_and_frontrun_sizing
    (oracle : ChainOracle) (w : String) (opp : MEVOpportunity) (b : BundleRequest)
    (v : Nat) (fd : FeeData)
    (hv : opp.targetTxValue = some v)
    (hfd : oracle.getFeeData = Except.ok fd)
    (h : createSandwichBundle oracle w opp = some b) :
    minerTip opp.profit = parseEther opp.profit / 2 ∧
    ∃ a c, b.transactions = [a, c] ∧
      a.tx.value = v / 10 ∧
      a.tx.maxFeePerGas = jsOr fd.maxFeePerGas gwei50 + minerTip opp.profit ∧
      c.tx.maxFeePerGas = jsOr fd.maxFeePerGas gwei50 + minerTip opp.profit := by
  obtain ⟨v2, cb, n, fd2, hv2, hz, hcb, hn, hfd2, hb⟩ := createSandwichBundle_inv h
  have hveq : v2 = v := Option.some.inj (hv2.symm.trans hv)
  have hfdeq : fd2 = fd := Except.ok.inj (hfd2.symm.trans hfd)
  subst hveq
  subst hfdeq
  subst hb
  exact ⟨rfl, _, _, rfl, rfl, rfl, rfl⟩

/-- C6 witness: the 1-ether scenario — profit 0.05 ether, tip 0.025 ether
(25000000000000000 wei), front-run value 0.1 ether
(100000000000000000 wei). -/
theorem createSandwichBundle_tip_and_frontrun_sizing_witness :
    (minerTip sampleAnalyzedOpportunity.profit
        = parseEther sampleAnalyzedOpportunity.profit / 2 ∧
     ∃ a c, sampleBundle.transactions = [a, c] ∧
       a.tx.value = 10 ^ 18 / 10 ∧
       a.tx.maxFeePerGas
         = jsOr okFeeData.maxFeePerGas gwei50 + minerTip sampleAnalyzedOpportunity.profit ∧
       c.tx.maxFeePerGas
         = jsOr okFeeData.maxFeePerGas gwei50 + minerTip sampleAnalyzedOpportunity.profit) ∧
    minerTip sampleAnalyzedOpportunity.profit = 25000000000000000 ∧
    (10 : Nat) ^ 18 / 10 = 100000000000000000 :=
  ⟨createSandwichBundle_tip_and_frontrun_sizing okOracle "0xWallet"
      sampleAnalyzedOpportunity sampleBundle (10 ^ 18) okFeeData rfl rfl (by decide),
   by decide, by decide⟩

/-- C7: a transaction whose recipient is absent or off the allow-list, or
whose value is at most 0.05 ether, never yields an opportunity. -/
theorem analyzeTransaction_never_passes_filtered
    (getBN : Except Unit Nat) (t : TransactionResponse)
    (h : (match t.«to» with
          | none => True
          | some a => dexAddresses.contains (toLowerCase a) = false)
         ∨ t.value ≤ minTargetValueWei) :
    analyzeTransaction getBN (some t) = none := by
  unfold analyzeTransaction
  cases hto : t.«to» with
  | none => simp only [hto]
  | some a =>
    simp only [hto]
    have hc : ¬(dexAddresses.contains (toLowerCase a) ∧ t.value ≠ 0 ∧
        minTargetValueWei < t.value) := by
      rintro ⟨h1, h2, h3⟩
      cases h with
      | inl hl =>
        rw [hto] at hl
        have hl2 : dexAddresses.contains (toLowerCase a) = false := hl
        rw [hl2] at h1
        exact absurd h1 (by decide)
      | inr hr => exact absurd h3 (Nat.not_lt.mpr hr)
    rw [if_neg hc]

/-- C7 witness: a 1-ether transaction to a non-router recipient is
rejected. -/
theorem analyzeTransaction_never_passes_filtered_witness :
    analyzeTransaction (Except.ok 100) (some nonDexTx) = none :=
  analyzeTransaction_never_passes_filtered (Except.ok 100) nonDexTx
    (Or.inl (show dexAddresses.contains
        (toLowerCase "0x000000000000000000000000000000000000dEaD") = false by decide))

/-- C8: the builder returns none when the target value is absent — the guard
runs before any external call, so the result is none for every oracle and
nothing is built, signed or submitted — and any later failure (block-number,
nonce or fee-data read, or signing) also yields none. -/
theorem createSandwichBundle_aborts_to_none
    (oracle : ChainOracle) (w : String) (opp : MEVOpportunity) :
    (opp.targetTxValue = none → createSandwichBundle oracle w opp = none) ∧
    (oracle.getBlockNumber = Except.error () →
      createSandwichBundle oracle w opp = none) ∧
    (oracle.getTransactionCount = Except.error () →
      createSandwichBundle oracle w opp = none) ∧
    (oracle.getFeeData = Except.error () →
      createSandwichBundle oracle w opp = none) ∧
    ((∀ r, oracle.signOk r = false) →
      createSandwichBundle oracle w opp = none) := by
  refine ⟨?_, ?_, ?_, ?_, ?_⟩
  · intro hFail
    simp [createSandwichBundle, hFail]
  · intro hFail
    unfold createSandwichBundle
    cases hv : opp.targetTxValue with
    | none => rfl
    | some v =>
      simp only [hv]
      by_cases hz : v = 0
      · rw [if_pos hz]
      · rw [if_neg hz, hFail]
  · intro hFail
    unfold createSandwichBundle
    cases hv : opp.targetTxValue with
    | none => rfl
    | some v =>
      simp only [hv]
      by_cases hz : v = 0
      · rw [if_pos hz]
      · rw [if_neg hz]
        cases hcb : oracle.getBlockNumber with
        | error e => rfl
        | ok cb => simp only [hcb, hFail]
  · intro hFail
    unfold createSandwichBundle
    cases hv : opp.targetTxValue with
    | none => rfl
    | some v =>
      simp only [hv]
      by_cases hz : v = 0
      · rw [if_pos hz]
      · rw [if_neg hz]
        cases hcb : oracle.getBlockNumber with
        | error e => rfl
        | ok cb =>
          cases hn : oracle.getTransactionCount with
          | error e => simp only [hcb, hn]
          | ok n => simp only [hcb, hn, hFail]
  · intro hFail
    unfold createSandwichBundle
    cases hv : opp.targetTxValue with
    | none => rfl
    | some v =>
      simp only [hv]
      by_cases hz : v = 0
      · rw [if_pos hz]
      · rw [if_neg hz]
        cases hcb : oracle.getBlockNumber with
        | error e => rfl
        | ok cb =>
          cases hn : oracle.getTransactionCount with
          | error e => simp only [hcb, hn]
          | ok n =>
            cases hfd : oracle.getFeeData with
            | error e => simp only [hcb, hn, hfd]
            | ok fd => simp [hcb, hn, hfd, hFail]

/-- C8 witness: an opportunity with no target value is rejected by the
builder even though every external call would succeed. -/
theorem createSandwichBundle_aborts_to_none_witness :
    createSandwichBundle okOracle "0xWallet"
      { type := MEVType.sandwich
        profit := formatEther 0
        transactions := []
        targetBlock := 0
        targetTxValue := none } = none :=
  (createSandwichBundle_aborts_to_none okOracle "0xWallet"
    { type := MEVType.sandwich
      profit := formatEther 0
      transactions := []
      targetBlock := 0
      targetTxValue := none }).1 rfl

/-- C9: every opportunity the analyzer produces is a sandwich whose target
value is present and above the 0.05-ether threshold; hence the builder's
missing-target-value guard is false on it, and whenever all external calls
and both signing calls succeed, the build in fact returns a bundle. -/
theorem analyzeTransaction_opportunities_buildable
    (getBN : Except Unit Nat) (tx : Option TransactionResponse) (o : MEVOpportunity)
    (h : analyzeTransaction getBN tx = some o) :
    o.type = MEVType.sandwich ∧
    (∃ v, o.targetTxValue = some v ∧ minTargetValueWei < v) ∧
    missingTargetValue o.targetTxValue = false ∧
    ∀ (oracle : ChainOracle) (w : String) (cb n : Nat) (fd : FeeData),
      oracle.getBlockNumber = Except.ok cb →
      oracle.getTransactionCount = Except.ok n →
      oracle.getFeeData = Except.ok fd →
      (∀ r, oracle.signOk r = true) →
      (createSandwichBundle oracle w o).isSome = true := by
  obtain ⟨t, toAddr, bn, htx, hto, hdex, hval, hbn, ho⟩ := analyzeTransaction_inv h
  subst ho
  have hnz : t.value ≠ 0 := by
    intro h0
    rw [h0] at hval
    exact absurd hval (by decide)
  refine ⟨rfl, ⟨t.value, rfl, hval⟩, ?_, ?_⟩
  · simp [missingTargetValue, hnz]
  · intro oracle w cb n fd hcb hn hfd hsign
    rw [createSandwichBundle_ok oracle w _ t.value cb n fd rfl hnz hcb hn hfd hsign]
    rfl

/-- C9 witness: the opportunity analyzed from the 1-ether candidate is a
sandwich, carries target value 1 ether, fails the missing-value guard check,
and builds successfully against the all-success oracle. -/
theorem analyzeTransaction_opportunities_buildable_witness :
    sampleAnalyzedOpportunity.type = MEVType.sandwich ∧
    (∃ v, sampleAnalyzedOpportunity.targetTxValue = some v ∧ minTargetValueWei < v) ∧
    missingTargetValue sampleAnalyzedOpportunity.targetTxValue = false ∧
    (createSandwichBundle okOracle "0xWallet" sampleAnalyzedOpportunity).isSome = true := by
  have h := analyzeTransaction_opportunities_buildable (Except.ok 100)
    (some sampleTargetTx) sampleAnalyzedOpportunity (by decide)
  exact ⟨h.1, h.2.1, h.2.2.1,
    h.2.2.2 okOracle "0xWallet" 100 7 okFeeData rfl rfl rfl (fun r => rfl)⟩

/-- C10: in every built bundle both transactions are addressed to the
hard-coded V2 router constant and carry the same placeholder calldata, for
any opportunity whatsoever (in particular one whose target went to the V3
router), and the back-run transaction's value is 0. -/
theorem createSandwichBundle_hardcoded_router_and_calldata
    (oracle : ChainOracle) (w : String) (opp : MEVOpportunity) (b : BundleRequest)
    (h : createSandwichBundle oracle w opp = some b) :
    ∃ a c, b.transactions = [a, c] ∧
      a.tx.«to» = UNISWAP_V2_ROUTER ∧ c.tx.«to» = UNISWAP_V2_ROUTER ∧
      a.tx.data = placeholderData ∧ c.tx.data = placeholderData ∧
      c.tx.value = 0 := by
  obtain ⟨v, cb, n, fd, hv, hz, hcb, hn, hfd, hb⟩ := createSandwichBundle_inv h
  subst hb
  exact ⟨_, _, rfl, rfl, rfl, rfl, rfl, rfl⟩

/-- C10 witness: the bundle built for a V3-routed target still addresses
both transactions to the V2 router with the placeholder calldata, back-run
value 0. -/
theorem createSandwichBundle_hardcoded_router_and_calldata_witness :
    ∃ a c, sampleBundle.transactions = [a, c] ∧
      a.tx.«to» = UNISWAP_V2_ROUTER ∧ c.tx.«to» = UNISWAP_V2_ROUTER ∧
      a.tx.data = placeholderData ∧ c.tx.data = placeholderData ∧
      c.tx.value = 0 :=
  createSandwichBundle_hardcoded_router_and_calldata okOracle "0xWallet"
    sampleV3Opportunity sampleBundle (by decide)
